import Mathlib

/-!
Verification of the statistical prop/parlay analyzer (`src/sba.py`).

The source's `ComprehensiveSportsAnalyzer` is purely computational apart from
its external collaborators, which are modelled as parameters:

* `np.erf` and `np.sqrt` (numeric library): the error function is passed as an
  abstract function `erf : ℚ → ℚ` and the constant `np.sqrt(2)` as `sqrt2 : ℚ`;
  the square root used inside the population standard deviation is passed as
  `sqrtF : ℚ → ℚ`.  All theorems hold for every choice of these parameters
  (with the hypotheses each theorem states, e.g. monotonicity).
* `_get_historical_data` (src line 150) is documented in the source as a
  placeholder for the real historical data feed, so it is modelled as an
  injected `getHistory : String → List ℚ`.

Machine floats are embedded as exact rationals; a floating-point fault
(division by a zero standard deviation, a dictionary `KeyError`) is embedded
as `Except.error`.
-/

namespace SBA

/-- `PropType` dataclass (src lines 8–15). -/
structure PropType where
  name : String
  stat_key : String
  threshold : Option ℚ
  prob_threshold : ℚ
  alt_lines : Option (List ℚ)
  category : String
deriving DecidableEq

/-- The dict returned by `_analyze_single_prop` (src lines 127–135). -/
structure Analysis where
  prop_name : String
  line : ℚ
  probability : ℚ
  ev : ℚ
  trend : ℚ
  category : String
  stat_key : String
deriving DecidableEq

/-- The dict returned by `_analyze_parlay` (src lines 144–148): keys
`combined_probability`, `ev`, `props`. -/
structure Parlay where
  combined_probability : ℚ
  ev : ℚ
  props : List String
deriving DecidableEq

/-- Dictionary-style lookup of a numeric key on a `_analyze_parlay` result.
The dict built at src lines 144–148 has exactly the numeric keys
`combined_probability` and `ev`; any other key is absent (a `KeyError` when
subscripted). -/
def parlayGet (p : Parlay) (key : String) : Option ℚ :=
  if key = "combined_probability" then some p.combined_probability
  else if key = "ev" then some p.ev
  else none

/-- `self.correlation_matrix['football']['passing']` (src lines 52–61): the
only populated leaf of the nested correlation dict, keyed by ordered pairs of
statistic keys. -/
def correlation_matrix_fp : List ((String × String) × ℚ) :=
  [(("passing_yards", "pass_attempts"), 4/5),
   (("passing_yards", "pass_completions"), 17/20),
   (("pass_attempts", "pass_completions"), 9/10)]

/-- `self.correlation_matrix['football']['passing'].get((a, b), 0)`
(src line 170): lookup under the ordered key `(a, b)`, defaulting to 0.  No
symmetrization is performed by the source. -/
def corrGet (a b : String) : ℚ :=
  match correlation_matrix_fp.find? (fun e => decide (e.1 = (a, b))) with
  | some e => e.2
  | none => 0

/-- The correlation coefficient recorded for an unordered pair of statistic
keys (spec §3: the correlation table is keyed by unordered pairs): the entry
under either order of the pair, `none` when no entry exists in either order. -/
def corrRecorded (a b : String) : Option ℚ :=
  match correlation_matrix_fp.find? (fun e => decide (e.1 = (a, b))) with
  | some e => some e.2
  | none =>
    match correlation_matrix_fp.find? (fun e => decide (e.1 = (b, a))) with
    | some e => some e.2
    | none => none

/-- The scalar entries of `self.variance_factors` (src lines 63–74), keyed by
prop category.  (The nested `parlays` sub-dict of src lines 68–73 is not a
scalar and is never read by any code path analyzed here, so it is omitted;
looking up an unknown key is a `KeyError`, hence `none`.) -/
def variance_factors (category : String) : Option ℚ :=
  if category = "standard" then some 1
  else if category = "alt_lines" then some (6/5)
  else if category = "special" then some (3/2)
  else none

/-- `np.mean` on a nonempty list: arithmetic mean. -/
def listMean (l : List ℚ) : ℚ := l.sum / l.length

/-- The square of `np.std` on a nonempty list: population variance
(`np.std` uses `ddof = 0`).  The standard deviation itself is `sqrtF` of this
value, with `sqrtF` the abstract square-root collaborator. -/
def popVariance (l : List ℚ) : ℚ :=
  ((l.map (fun x => (x - listMean l) * (x - listMean l))).sum) / l.length

/-- `_calculate_trend` (src lines 154–155): the degree-1 `np.polyfit` slope of
sample value against 0-based index, in closed least-squares form.  For a
single sample the normal-equation determinant is 0 and `np.polyfit` falls back
to the minimum-norm least-squares solution, whose slope is 0. -/
def _calculate_trend (historical : List ℚ) : ℚ :=
  let n : ℚ := historical.length
  let xs : List ℚ := (List.range historical.length).map (fun i => (i : ℚ))
  let sx := xs.sum
  let sy := historical.sum
  let sxy := ((xs.zip historical).map (fun p => p.1 * p.2)).sum
  let sxx := (xs.map (fun x => x * x)).sum
  let d := n * sxx - sx * sx
  if d = 0 then 0 else (n * sxy - sx * sy) / d

/-- `_calculate_matchup_factor` (src lines 157–158): the placeholder returns
the fixed neutral value 1.0 for every player. -/
def _calculate_matchup_factor : ℚ := 1

/-- `_calculate_probability` (src lines 160–163).  The source divides by
`adjusted_std` unconditionally; a zero adjusted standard deviation is the
division-by-zero fault (embedded as `Except.error`), with no edge-case branch
in the source. -/
def _calculate_probability (erf : ℚ → ℚ) (sqrt2 : ℚ)
    (adjusted_mean adjusted_std line : ℚ) : Except String ℚ :=
  if adjusted_std = 0 then Except.error "division by zero"
  else
    let z_score := (line - adjusted_mean) / adjusted_std
    Except.ok (1 - (0.5 * (1 + erf (z_score / sqrt2))))

/-- `_calculate_ev` (src lines 165–167). -/
def _calculate_ev (probability line : ℚ) : ℚ :=
  let odds := line / 100
  (probability * odds) - (1 - probability)

/-- The numeric core of `_analyze_single_prop` (src lines 114–125): the
StatModel computation of spec §4.1, parametric in the matchup and variance
factors that `_analyze_single_prop` supplies.  Returns
`(probability, ev, trend)`. -/
def statModel (erf : ℚ → ℚ) (sqrt2 : ℚ) (sqrtF : ℚ → ℚ) (historical : List ℚ)
    (line matchup_factor variance_factor : ℚ) : Except String (ℚ × ℚ × ℚ) := do
  let mean := listMean historical
  let std := sqrtF (popVariance historical)
  let trend := _calculate_trend historical
  let adjusted_mean := mean * matchup_factor * (1 + trend)
  let adjusted_std := std * variance_factor
  let probability ← _calculate_probability erf sqrt2 adjusted_mean adjusted_std line
  let ev := _calculate_ev probability line
  pure (probability, ev, trend)

/-- `_analyze_single_prop` (src lines 108–135): fetch history, skip when the
history is empty (`if not historical: return None`), look up the variance
factor by the prop's category, run the StatModel computation and package the
result dict. -/
def _analyze_single_prop (erf : ℚ → ℚ) (sqrt2 : ℚ) (sqrtF : ℚ → ℚ)
    (getHistory : String → List ℚ) (prop : PropType) (line : ℚ) (category : String) :
    Except String (Option Analysis) :=
  let historical := getHistory prop.stat_key
  if historical = [] then Except.ok none
  else
    match variance_factors prop.category with
    | none => Except.error "KeyError: variance factor"
    | some variance_factor => do
      let matchup_factor := _calculate_matchup_factor
      let (probability, ev, trend) ←
        statModel erf sqrt2 sqrtF historical line matchup_factor variance_factor
      pure (some { prop_name := prop.name, line := line, probability := probability,
                   ev := ev, trend := trend, category := category, stat_key := prop.stat_key })

/-- `SPORTS_PROPS` (src lines 18–45): the static catalog, in source order. -/
def SPORTS_PROPS : List (String × List (String × List PropType)) :=
  [("football",
    [("passing",
      [⟨"Pass Yards", "passing_yards", none, 17/20, some [200.5, 225.5, 250.5, 275.5, 300.5], "standard"⟩,
       ⟨"Pass TDs", "passing_tds", none, 17/20, some [0.5, 1.5, 2.5, 3.5], "standard"⟩,
       ⟨"Pass Attempts", "pass_attempts", none, 17/20, some [25.5, 30.5, 35.5, 40.5], "standard"⟩,
       ⟨"Pass Completions", "pass_completions", none, 17/20, some [15.5, 20.5, 25.5, 30.5], "standard"⟩,
       ⟨"Interceptions", "interceptions", none, 17/20, some [0.5, 1.5], "standard"⟩,
       ⟨"Longest Completion", "longest_completion", none, 17/20, some [20.5, 25.5, 30.5, 35.5], "standard"⟩,
       ⟨"First TD Pass", "first_td_pass", none, 17/20, none, "special"⟩]),
     ("rushing",
      [⟨"Rush Yards", "rushing_yards", none, 17/20, some [50.5, 75.5, 100.5], "standard"⟩,
       ⟨"Rush TDs", "rushing_tds", none, 17/20, some [0.5, 1.5], "standard"⟩]),
     ("receiving",
      [⟨"Rec Yards", "receiving_yards", none, 17/20, some [50.5, 75.5, 100.5], "standard"⟩,
       ⟨"Rec TDs", "receiving_tds", none, 17/20, some [0.5, 1.5], "standard"⟩])]),
   ("basketball",
    [("scoring",
      [⟨"Points", "points", none, 17/20, some [15.5, 20.5, 25.5], "standard"⟩,
       ⟨"Rebounds", "rebounds", none, 17/20, some [5.5, 7.5, 10.5], "standard"⟩,
       ⟨"Assists", "assists", none, 17/20, some [4.5, 6.5, 8.5], "standard"⟩])])]

/-- Dict lookup on a string-keyed association list (Python `d[k]`:
`none` is the `KeyError` case). -/
def lookupKey {α : Type} (m : List (String × α)) (k : String) : Option α :=
  (m.find? (fun e => decide (e.1 = k))).map (fun e => e.2)

/-- `prop.alt_lines or [prop.threshold]` (src line 82): Python `or` falls
through to `[prop.threshold]` when `alt_lines` is `None` or the empty list. -/
def candidateLines (prop : PropType) : List (Option ℚ) :=
  match prop.alt_lines with
  | some (l :: ls) => (l :: ls).map some
  | _ => [prop.threshold]

/-- Modelled from the spec: `analyze_props` (src line 93) returns
`self._filter_correlated_props(valid_props, min_correlation)`, but no method
of that name is defined anywhere in the repository.  This definition follows
spec §4.3: for any two evaluations whose statistic keys have a recorded
correlation coefficient strictly below `min_correlation`, the weaker one
(lower probability) is removed; evaluations with no recorded correlation
entry are never filtered by this step. -/
def filter_correlated_props (props : List Analysis) (min_correlation : ℚ) : List Analysis :=
  props.filter (fun p =>
    !(props.any (fun q =>
      match corrRecorded p.stat_key q.stat_key with
      | some c => decide (c < min_correlation) && decide (p.probability < q.probability)
      | none => false)))

/-- The collection loop of `analyze_props` (src lines 78–91): for every
category, prop and candidate line, skip `None` lines, analyze the single prop,
and keep the evaluation when its probability meets the prop's cutoff. -/
def collect_valid_props (erf : ℚ → ℚ) (sqrt2 : ℚ) (sqrtF : ℚ → ℚ)
    (getHistory : String → List ℚ) (categories : List (String × List PropType)) :
    Except String (List Analysis) :=
  categories.foldlM (fun acc cat =>
    cat.2.foldlM (fun acc prop =>
      (candidateLines prop).foldlM (fun acc oline =>
        match oline with
        | none => pure acc
        | some line => do
          let analysis ← _analyze_single_prop erf sqrt2 sqrtF getHistory prop line cat.1
          match analysis with
          | none => pure acc
          | some a => pure (if prop.prob_threshold ≤ a.probability then acc ++ [a] else acc))
        acc)
      acc)
    ([] : List Analysis)

/-- `analyze_props` (src lines 76–93): collect the kept evaluations, then
apply the correlation-filtering stage to them. -/
def analyze_props (erf : ℚ → ℚ) (sqrt2 : ℚ) (sqrtF : ℚ → ℚ)
    (getHistory : String → List ℚ) (sport : String) (min_correlation : ℚ) :
    Except String (List Analysis) :=
  match lookupKey SPORTS_PROPS sport with
  | none => Except.error "KeyError: sport"
  | some categories => do
    let valid_props ← collect_valid_props erf sqrt2 sqrtF getHistory categories
    pure (filter_correlated_props valid_props min_correlation)

/-- `_calculate_total_correlation` (src lines 169–171): the generator
`sum(matrix.get((p['stat_key'], p2['stat_key']), 0) for p in props for p2 in
props if p != p2)`, a nested iteration over ordered pairs of unequal
evaluations with ordered-key lookup. -/
def _calculate_total_correlation (props : List Analysis) : ℚ :=
  (props.map (fun p =>
    ((props.filter (fun p2 => p ≠ p2)).map (fun p2 => corrGet p.stat_key p2.stat_key)).sum)).sum

/-- `_calculate_combined_probability` (src lines 173–177): running product of
the individual probabilities, then scaled by `(1 + total_correlation)`. -/
def _calculate_combined_probability (individual_probs : List ℚ) (total_correlation : ℚ) : ℚ :=
  (individual_probs.foldl (fun combined prob => combined * prob) 1) * (1 + total_correlation)

/-- `_calculate_combined_ev` (src lines 179–180). -/
def _calculate_combined_ev (props : List Analysis) : ℚ :=
  (props.map (fun p => p.ev)).sum

/-- `_analyze_parlay` (src lines 137–148). -/
def _analyze_parlay (props : List Analysis) : Parlay :=
  let total_correlation := _calculate_total_correlation props
  let individual_probs := props.map (fun p => p.probability)
  let combined_probability := _calculate_combined_probability individual_probs total_correlation
  let ev := _calculate_combined_ev props
  { combined_probability := combined_probability, ev := ev,
    props := props.map (fun p => p.prop_name) }

/-- The combination enumeration of `generate_optimal_parlays` (src lines
100–101): `itertools.combinations(valid_props, n)` for each leg count `n`
from `min_picks` to `max_picks` inclusive — all selections without
repetition, i.e. all sublists of the given length. -/
def parlayCombos (valid_props : List Analysis) (min_picks max_picks : Nat) :
    List (List Analysis) :=
  (List.range' min_picks (max_picks + 1 - min_picks)).foldr
    (fun n acc => List.sublistsLen n valid_props ++ acc) []

/-- `sorted(parlays, key=lambda x: x['ev'], reverse=True)` (src line 106):
stable sort, descending by expected value. -/
def sortByEvDesc (parlays : List Parlay) : List Parlay :=
  parlays.mergeSort (fun a b => decide (b.ev ≤ a.ev))

/-- `generate_optimal_parlays` (src lines 95–106).  For each combination the
source evaluates `parlay['probability']` — a key the dict built by
`_analyze_parlay` does not contain — so the subscript is the `KeyError`
fault. -/
def generate_optimal_parlays (valid_props : List Analysis) (min_picks max_picks : Nat)
    (min_probability : ℚ) : Except String (List Parlay) := do
  let parlays ← (parlayCombos valid_props min_picks max_picks).foldlM
    (fun parlays combo => do
      let parlay := _analyze_parlay combo
      match parlayGet parlay "probability" with
      | none => Except.error "KeyError: probability"
      | some p =>
        pure (if min_probability ≤ p then parlays ++ [parlay] else parlays))
    ([] : List Parlay)
  pure (sortByEvDesc parlays)

/-! ### Definitions written from the spec's words, for refinement claims -/

/-- The spec's probability formula (§4.1), written from the spec's words:
`probability = 1 − Φ(z)` with `Φ(z) = 0.5 * (1 + erf(z / sqrt 2))`,
`z = (line − adjustedMean) / adjustedStd`,
`adjustedMean = mean * matchupFactor * (1 + trend)`, and
`adjustedStd = (population standard deviation) * varianceFactor`. -/
def spec_statModel_probability (erf : ℚ → ℚ) (sqrt2 : ℚ) (sqrtF : ℚ → ℚ)
    (historical : List ℚ) (line matchupFactor varianceFactor : ℚ) : ℚ :=
  let mean := listMean historical
  let std := sqrtF (popVariance historical)
  let trend := _calculate_trend historical
  let adjustedMean := mean * matchupFactor * (1 + trend)
  let adjustedStd := std * varianceFactor
  let z := (line - adjustedMean) / adjustedStd
  let phiZ := 0.5 * (1 + erf (z / sqrt2))
  1 - phiZ

/-- The spec's expected-value formula (§4.1), written from the spec's words:
`expectedValue = probability * (line / 100) − (1 − probability)`. -/
def spec_expected_value (probability line : ℚ) : ℚ :=
  probability * (line / 100) - (1 - probability)

/-- All ordered pairs drawn from a list (its square), for the amended C6
statement. -/
def listPairs (l : List Analysis) : List (Analysis × Analysis) :=
  l.foldr (fun p acc => (l.map (fun q => (p, q))) ++ acc) []

/-- The amended spec formula for `totalCorrelation`: the sum over all ordered
pairs of unequal legs of the coefficient recorded under the ordered key
`(first leg's statistic key, second leg's statistic key)`, 0 when that
ordered key is absent. -/
def spec_total_correlation (props : List Analysis) : ℚ :=
  ((listPairs props).map (fun pq =>
    if pq.1 = pq.2 then 0 else corrGet pq.1.stat_key pq.2.stat_key)).sum

/-- The spec formula for `combinedProbability`: product of individual leg
probabilities multiplied by `(1 + totalCorrelation)`. -/
def spec_combined_probability (individual_probs : List ℚ) (total_correlation : ℚ) : ℚ :=
  individual_probs.prod * (1 + total_correlation)

/-- A sample evaluation for the passing-yards statistic. -/
def sampleEval1 : Analysis :=
  { prop_name := "Pass Yards", line := 250.5, probability := 9/10, ev := 1, trend := 0,
    category := "passing", stat_key := "passing_yards" }

/-- A sample evaluation for the pass-attempts statistic, with a higher
probability than `sampleEval1`. -/
def sampleEval2 : Analysis :=
  { prop_name := "Pass Attempts", line := 30.5, probability := 19/20, ev := 1, trend := 0,
    category := "passing", stat_key := "pass_attempts" }

/-! ### Theorems -/

/-- C5: for every probability `p` and line value, the expected value computed
by StatModel equals exactly `p * (line / 100) − (1 − p)`, with no other payout
adjustment. -/
theorem C5_expected_value_formula (p line : ℚ) :
    _calculate_ev p line = spec_expected_value p line := rfl

/-- C4: whenever the StatModel computation returns a probability (i.e. the
adjusted standard deviation is nonzero and no fault occurs), that probability
equals the spec formula `1 − Φ(z)` with `Φ(z) = 0.5 * (1 + erf(z / √2))`,
`z = (line − adjustedMean) / adjustedStd`,
`adjustedMean = mean * matchupFactor * (1 + trend)` and
`adjustedStd = (population std) * varianceFactor` — for every sample sequence,
line, matchup factor and variance factor, and every choice of the numeric
library collaborators `erf`, `sqrt2`, `sqrtF`. -/
theorem C4_probability_formula (erf : ℚ → ℚ) (sqrt2 : ℚ) (sqrtF : ℚ → ℚ)
    (historical : List ℚ) (line mf vf : ℚ) (out : ℚ × ℚ × ℚ)
    (h : statModel erf sqrt2 sqrtF historical line mf vf = Except.ok out) :
    out.1 = spec_statModel_probability erf sqrt2 sqrtF historical line mf vf := by
  unfold statModel _calculate_probability at h
  unfold spec_statModel_probability
  by_cases hz : sqrtF (popVariance historical) * vf = 0
  · simp [hz, Except.bind] at h
  · simp [hz, Except.bind, _calculate_ev] at h
    simp [← h, hz]

/-- Concrete instance discharging the hypothesis of `C4_probability_formula`:
at `erf = id`, `sqrt2 = 1`, `sqrtF = id`, samples `[1, 3]`, line 0, factors 1,
the returned probability is `7/2` and it equals the spec formula. -/
theorem C4_probability_formula_witness :
    (7/2 : ℚ) = spec_statModel_probability (fun x => x) 1 (fun x => x) [1, 3] 0 1 1 :=
  C4_probability_formula (fun x => x) 1 (fun x => x) [1, 3] 0 1 1 (7/2, 5/2, 2) (by
    norm_num [statModel, _calculate_probability, _calculate_trend, listMean, popVariance,
      _calculate_ev, Except.bind, List.range, List.range.loop])

/-- C3: the code does NOT define an edge case for a zero adjusted standard
deviation.  First conjunct: for every `erf`, `sqrt2`, adjusted mean and line,
`_calculate_probability` at `adjusted_std = 0` is exactly the division-by-zero
fault — there is no branch producing a sentinel or excluding the pair.  Second
conjunct: the failing input — constant samples `[20, 20]` (population std 0),
line 10, factors 1 — drives the whole StatModel computation into that fault. -/
theorem C3_zero_std_unhandled :
    (∀ (erf : ℚ → ℚ) (sqrt2 am line : ℚ),
       _calculate_probability erf sqrt2 am 0 line = Except.error "division by zero")
    ∧ statModel (fun x => x) 1 (fun x => x) [20, 20] 10 1 1
        = Except.error "division by zero" := by
  constructor
  · intro erf sqrt2 am line
    simp [_calculate_probability]
  · norm_num [statModel, _calculate_probability, _calculate_trend, listMean, popVariance,
      Except.bind, List.range, List.range.loop]

/-- C7: holding the adjusted mean and a positive adjusted standard deviation
fixed (and for a monotone error function and positive `sqrt 2` constant, as
the real `erf` and `√2` are), the probability computed by
`_calculate_probability` is non-increasing in the line: `l1 ≤ l2` implies
`probability(l1) ≥ probability(l2)`. -/
theorem C7_probability_monotone_in_line (erf : ℚ → ℚ) (sqrt2 am as l1 l2 p1 p2 : ℚ)
    (hm : Monotone erf) (hs : 0 < as) (h2 : 0 < sqrt2) (hl : l1 ≤ l2)
    (h1 : _calculate_probability erf sqrt2 am as l1 = Except.ok p1)
    (hp2 : _calculate_probability erf sqrt2 am as l2 = Except.ok p2) :
    p2 ≤ p1 := by
  have hsne : as ≠ 0 := ne_of_gt hs
  simp only [_calculate_probability, if_neg hsne, Except.ok.injEq] at h1 hp2
  have hz : (l1 - am) / as / sqrt2 ≤ (l2 - am) / as / sqrt2 := by gcongr
  have he := hm hz
  linarith [h1, hp2, he]

/-- Concrete instance discharging the hypotheses of
`C7_probability_monotone_in_line`: with `erf = id`, `sqrt2 = 1`, adjusted mean
0, adjusted std 1, the probability at line 1 (namely 0) is at most the
probability at line 0 (namely 1/2). -/
theorem C7_probability_monotone_in_line_witness : (0 : ℚ) ≤ 1/2 :=
  C7_probability_monotone_in_line (fun x => x) 1 0 1 0 1 (1/2) 0
    (fun _ _ h => h) one_pos one_pos (by norm_num)
    (by norm_num [_calculate_probability])
    (by norm_num [_calculate_probability])

/-- C8: the evaluator does NOT skip a one-sample history.  First conjunct: an
empty history is skipped (`Except.ok none`, no evaluation, no fault), for
every prop and line.  Second conjunct: the failing input — a single-sample
history `[50]` for a standard-category prop at line 50.5 — is not skipped; the
code proceeds, gets a zero population standard deviation, and faults in the
probability computation instead of producing no evaluation. -/
theorem C8_single_sample_not_skipped :
    (∀ (erf : ℚ → ℚ) (sqrt2 : ℚ) (sqrtF : ℚ → ℚ) (prop : PropType) (line : ℚ)
       (category : String),
       _analyze_single_prop erf sqrt2 sqrtF (fun _ => []) prop line category = Except.ok none)
    ∧ _analyze_single_prop (fun x => x) 1 (fun x => x) (fun _ => [50])
        ⟨"Rush Yards", "rushing_yards", none, 17/20, some [50.5, 75.5, 100.5], "standard"⟩
        (50.5) "rushing" = Except.error "division by zero" := by
  constructor
  · intro erf sqrt2 sqrtF prop line category
    simp [_analyze_single_prop]
  · norm_num [_analyze_single_prop, variance_factors, statModel, _calculate_probability,
      _calculate_trend, listMean, popVariance, Except.bind, List.range, List.range.loop]

/-- Summing a function over the values of a list unequal to `p` is the same as
summing over the whole list with 0 at the values equal to `p`. -/
theorem filter_ne_map_sum (p : Analysis) (l : List Analysis) (f : Analysis → ℚ) :
    ((l.filter (fun p2 => p ≠ p2)).map f).sum
      = (l.map (fun q => if p = q then 0 else f q)).sum := by
  induction l with
  | nil => rfl
  | cons a t ih =>
    by_cases h : p = a
    · rw [List.filter_cons_of_neg (by simp [h]), List.map_cons, List.sum_cons, if_pos h, ih,
        zero_add]
    · rw [List.filter_cons_of_pos (by simp [h]), List.map_cons, List.map_cons, List.sum_cons,
        List.sum_cons, if_neg h, ih]

/-- Summing over the square of a list, pair by pair, equals the nested
row-by-row sum. -/
theorem pairs_sum_aux (g : Analysis × Analysis → ℚ) (inner : List Analysis) :
    ∀ outer : List Analysis,
    ((outer.foldr (fun p acc => (inner.map (fun q => (p, q))) ++ acc) []).map g).sum
      = (outer.map (fun p => (inner.map (fun q => g (p, q))).sum)).sum := by
  intro outer
  induction outer with
  | nil => rfl
  | cons a t ih =>
    simp only [List.foldr_cons, List.map_append, List.sum_append, ih, List.map_map,
      List.map_cons, List.sum_cons]
    rfl

/-- Total correlation of a two-leg combination with unequal legs: one
ordered-key lookup per order. -/
theorem total_correlation_pair (p q : Analysis) (h : p ≠ q) :
    _calculate_total_correlation [p, q]
      = corrGet p.stat_key q.stat_key + corrGet q.stat_key p.stat_key := by
  have h2 : q ≠ p := h.symm
  simp [_calculate_total_correlation, List.filter_cons, h, h2]

/-- C6 counterexample: the unordered pair (passing_yards, pass_attempts) has a
recorded correlation coefficient of 0.8, but in a two-leg combination over
those statistics `totalCorrelation` is 0.8, not the doubled 1.6 the claim
requires: the table is keyed by ordered tuples in a single order and the
lookup is not symmetrized, so the pair contributes once, not once per order. -/
theorem C6_correlation_not_double_counted :
    corrRecorded "passing_yards" "pass_attempts" = some (4/5)
    ∧ _calculate_total_correlation [sampleEval1, sampleEval2] = 4/5
    ∧ _calculate_total_correlation [sampleEval1, sampleEval2] ≠ 2 * (4/5) := by
  have hne : sampleEval1 ≠ sampleEval2 := by simp [sampleEval1, sampleEval2]
  have htc : _calculate_total_correlation [sampleEval1, sampleEval2] = 4/5 := by
    rw [total_correlation_pair sampleEval1 sampleEval2 hne,
      show corrGet sampleEval1.stat_key sampleEval2.stat_key = 4/5 from rfl,
      show corrGet sampleEval2.stat_key sampleEval1.stat_key = 0 from rfl]
    norm_num
  exact ⟨rfl, htc, by rw [htc]; norm_num⟩

/-- C6 (amended): `totalCorrelation` equals the sum over all ordered pairs of
unequal legs of the coefficient recorded under the ordered key (first leg's
statistic key, second leg's statistic key), 0 when that ordered key is absent
— so an unordered pair recorded in a single order contributes once — and
`combinedProbability` equals the product of the individual leg probabilities
multiplied by `(1 + totalCorrelation)`. -/
theorem C6_total_correlation_and_combined_probability (props : List Analysis)
    (probs : List ℚ) (tc : ℚ) :
    _calculate_total_correlation props = spec_total_correlation props
    ∧ _calculate_combined_probability probs tc = spec_combined_probability probs tc := by
  constructor
  · unfold _calculate_total_correlation spec_total_correlation listPairs
    rw [pairs_sum_aux]
    congr 1
    apply List.map_congr_left
    intro p _
    exact filter_ne_map_sum p props (fun p2 => corrGet p.stat_key p2.stat_key)
  · unfold _calculate_combined_probability spec_combined_probability
    rw [List.prod_eq_foldl]

/-- Membership in a foldr-concatenation of `sublistsLen` blocks comes from one
of the blocks. -/
theorem mem_foldr_sublistsLen {combo vp : List Analysis} :
    ∀ ns : List Nat,
    combo ∈ ns.foldr (fun n acc => List.sublistsLen n vp ++ acc) [] →
    ∃ n ∈ ns, combo ∈ List.sublistsLen n vp := by
  intro ns
  induction ns with
  | nil => intro h; exact absurd h (List.not_mem_nil _)
  | cons a t ih =>
    intro h
    rcases List.mem_append.1 h with h | h
    · exact ⟨a, List.mem_cons_self a t, h⟩
    · obtain ⟨n, hn, hc⟩ := ih h
      exact ⟨n, List.mem_cons_of_mem a hn, hc⟩

/-- Every combination enumerated at src lines 100–101 has its leg count
between `min_picks` and `max_picks` and is a selection without repetition
(a sublist) of the input evaluations. -/
theorem mem_parlayCombos {combo vp : List Analysis} {mn mx : Nat}
    (h : combo ∈ parlayCombos vp mn mx) :
    mn ≤ combo.length ∧ combo.length ≤ mx ∧ combo.Sublist vp := by
  unfold parlayCombos at h
  obtain ⟨n, hn, hc⟩ := mem_foldr_sublistsLen _ h
  rw [List.mem_range'] at hn
  obtain ⟨i, hi, rfl⟩ := hn
  rw [List.mem_sublistsLen] at hc
  obtain ⟨hsub, hlen⟩ := hc
  refine ⟨?_, ?_, hsub⟩ <;> omega

/-- When `generate_optimal_parlays` returns at all (instead of faulting on the
missing `probability` key), the returned list is empty: the per-combination
filter faults on the first combination, so a normal return means there was no
combination. -/
theorem generate_ok_eq_nil {vp : List Analysis} {mn mx : Nat} {mp : ℚ} {res : List Parlay}
    (h : generate_optimal_parlays vp mn mx mp = Except.ok res) : res = [] := by
  unfold generate_optimal_parlays at h
  cases hc : parlayCombos vp mn mx with
  | nil =>
    rw [hc] at h
    simp [List.foldlM, sortByEvDesc, List.mergeSort, pure, Except.pure, bind, Except.bind] at h
    exact h
  | cons c t =>
    rw [hc] at h
    simp [List.foldlM, parlayGet, bind, Except.bind] at h

/-- C2 (code bug): the candidate filter of `generate_optimal_parlays`
subscripts `parlay['probability']`, a key absent from the dict built by
`_analyze_parlay` (whose probability lives under `combined_probability`), so
the filtering step raises `KeyError` for every combination produced.  First
conjunct: the root cause, for every parlay dict.  Second conjunct: the
failing input — two evaluations with the default pick bounds produce one
combination and the call faults instead of filtering. -/
theorem C2_probability_key_error :
    (∀ parlay : Parlay, parlayGet parlay "probability" = none
       ∧ parlayGet parlay "combined_probability" = some parlay.combined_probability)
    ∧ generate_optimal_parlays [sampleEval1, sampleEval2] 2 5 (17/20)
        = Except.error "KeyError: probability" := by
  refine ⟨fun parlay => ⟨rfl, rfl⟩, ?_⟩
  rfl

/-- C9: every candidate constructed by `generate_optimal_parlays` comes from
an enumerated combination whose leg count lies between `min_picks` and
`max_picks` inclusive (strictly more than one leg when `min_picks ≥ 2`, the
spec invariant) and whose legs are drawn without repetition (a sublist) from
the input evaluation set; the candidate carries exactly those legs.  Second
conjunct: every candidate in a normally returned list is of that shape (with
the `KeyError` of C2, a normal return can only be the empty list, so this
holds without exception). -/
theorem C9_parlay_leg_bounds (valid_props : List Analysis) (mn mx : Nat) (mp : ℚ) :
    (∀ combo ∈ parlayCombos valid_props mn mx,
       (mn ≤ combo.length ∧ combo.length ≤ mx)
       ∧ combo.Sublist valid_props
       ∧ (2 ≤ mn → 1 < combo.length)
       ∧ (_analyze_parlay combo).props.length = combo.length)
    ∧ (∀ res, generate_optimal_parlays valid_props mn mx mp = Except.ok res →
        ∀ parlay ∈ res, ∃ combo ∈ parlayCombos valid_props mn mx,
          parlay = _analyze_parlay combo) := by
  constructor
  · intro combo hc
    obtain ⟨h1, h2, h3⟩ := mem_parlayCombos hc
    exact ⟨⟨h1, h2⟩, h3, fun hmn => by omega, by simp [_analyze_parlay]⟩
  · intro res hres parlay hp
    rw [generate_ok_eq_nil hres] at hp
    exact absurd hp (List.not_mem_nil _)

/-- Concrete instance discharging the hypotheses of `C9_parlay_leg_bounds`:
the one combination enumerated from two evaluations with
`min_picks = max_picks = 2` has both bounds, is a sublist of the input, has
more than one leg, and its parlay carries two legs. -/
theorem C9_parlay_leg_bounds_witness :
    ((2 ≤ ([sampleEval1, sampleEval2] : List Analysis).length
        ∧ ([sampleEval1, sampleEval2] : List Analysis).length ≤ 2)
      ∧ ([sampleEval1, sampleEval2] : List Analysis).Sublist [sampleEval1, sampleEval2]
      ∧ (2 ≤ 2 → 1 < ([sampleEval1, sampleEval2] : List Analysis).length)
      ∧ (_analyze_parlay [sampleEval1, sampleEval2]).props.length
          = ([sampleEval1, sampleEval2] : List Analysis).length) :=
  (C9_parlay_leg_bounds [sampleEval1, sampleEval2] 2 2 (17/20)).1
    [sampleEval1, sampleEval2] (List.mem_cons_self _ _)

/-- A foldr-concatenation of `sublistsLen` blocks over lengths all exceeding
the list's length is empty. -/
theorem foldr_sublistsLen_nil {vp : List Analysis} :
    ∀ ns : List Nat, (∀ n ∈ ns, vp.length < n) →
    ns.foldr (fun n acc => List.sublistsLen n vp ++ acc) [] = [] := by
  intro ns
  induction ns with
  | nil => intro _; rfl
  | cons a t ih =>
    intro h
    simp only [List.foldr_cons]
    rw [List.sublistsLen_of_length_lt (h a (List.mem_cons_self a t)), List.nil_append]
    exact ih (fun n hn => h n (List.mem_cons_of_mem a hn))

/-- C10: with fewer evaluations than `min_picks` (in particular the empty
list), no combination of any size in range exists, so
`generate_optimal_parlays` returns the empty list without raising. -/
theorem C10_too_few_evaluations (valid_props : List Analysis) (mn mx : Nat) (mp : ℚ)
    (h : valid_props.length < mn) :
    generate_optimal_parlays valid_props mn mx mp = Except.ok [] := by
  have hcombos : parlayCombos valid_props mn mx = [] := by
    unfold parlayCombos
    apply foldr_sublistsLen_nil
    intro n hn
    rw [List.mem_range'] at hn
    obtain ⟨i, hi, rfl⟩ := hn
    omega
  unfold generate_optimal_parlays
  rw [hcombos]
  simp [List.foldlM, sortByEvDesc, List.mergeSort, pure, Except.pure, bind, Except.bind]

/-- Concrete instance discharging the hypothesis of
`C10_too_few_evaluations`: the empty evaluation list with the default pick
bounds yields the empty parlay list, no fault. -/
theorem C10_too_few_evaluations_witness :
    generate_optimal_parlays [] 2 5 (17/20) = Except.ok [] :=
  C10_too_few_evaluations [] 2 5 (17/20) (by decide)

/-- C1: the correlation-filtering stage applied by `analyze_props` to the
kept evaluations (spec-modelled, since `_filter_correlated_props` is absent
from the repository).  (i) it only returns survivors from the kept list;
(ii) of any two kept evaluations whose statistic keys have a recorded
correlation strictly below `min_correlation`, the lower-probability one is
removed; (iii) an evaluation all of whose recorded correlations against the
kept list are `≥ min_correlation` — in particular one at the exact boundary,
or one with no recorded entry at all — is never removed; (iv) whenever
`analyze_props` returns, its result is this filter applied to some kept list
(the stage is applied and itself never fails). -/
theorem C1_correlation_filter (props : List Analysis) (mc : ℚ) :
    (∀ p ∈ filter_correlated_props props mc, p ∈ props)
    ∧ (∀ p ∈ props, ∀ q ∈ props, ∀ c, corrRecorded p.stat_key q.stat_key = some c →
        c < mc → p.probability < q.probability → p ∉ filter_correlated_props props mc)
    ∧ (∀ p ∈ props, (∀ q ∈ props, ∀ c, corrRecorded p.stat_key q.stat_key = some c → mc ≤ c) →
        p ∈ filter_correlated_props props mc)
    ∧ (∀ (erf : ℚ → ℚ) (sqrt2 : ℚ) (sqrtF : ℚ → ℚ) (getHistory : String → List ℚ)
        (sport : String) (res : List Analysis),
        analyze_props erf sqrt2 sqrtF getHistory sport mc = Except.ok res →
        ∃ kept, res = filter_correlated_props kept mc) := by
  refine ⟨?_, ?_, ?_, ?_⟩
  · intro p hp
    exact List.mem_of_mem_filter hp
  · intro p hp q hq c hc hcmc hpq hmem
    have hpred := (List.mem_filter.1 hmem).2
    rw [Bool.not_eq_true', List.any_eq_false] at hpred
    have hq' := hpred q hq
    rw [hc] at hq'
    simp [hcmc, hpq] at hq'
  · intro p hp hall
    apply List.mem_filter.2
    refine ⟨hp, ?_⟩
    rw [Bool.not_eq_true', List.any_eq_false]
    intro q hq
    cases hcr : corrRecorded p.stat_key q.stat_key with
    | none => simp
    | some c =>
      have := hall q hq c hcr
      simp [not_lt.2 this]
  · intro erf sqrt2 sqrtF getHistory sport res hres
    unfold analyze_props at hres
    cases hl : lookupKey SPORTS_PROPS sport with
    | none => rw [hl] at hres; exact absurd hres (by simp)
    | some categories =>
      cases hcol : collect_valid_props erf sqrt2 sqrtF getHistory categories with
      | error e =>
        rw [hl] at hres
        simp [hcol, bind, Except.bind] at hres
      | ok kept =>
        rw [hl] at hres
        simp [hcol, bind, Except.bind, pure, Except.pure] at hres
        exact ⟨kept, hres.symm⟩

/-- Concrete instance discharging the hypotheses of `C1_correlation_filter`:
with threshold 1, the recorded coefficient 0.8 of the
(passing_yards, pass_attempts) pair is strictly below the threshold, so the
lower-probability evaluation is removed from the kept set. -/
theorem C1_correlation_filter_witness :
    sampleEval1 ∉ filter_correlated_props [sampleEval1, sampleEval2] 1 :=
  (C1_correlation_filter [sampleEval1, sampleEval2] 1).2.1
    sampleEval1 (List.mem_cons_self _ _)
    sampleEval2 (List.mem_cons_of_mem _ (List.mem_cons_self _ _))
    (4/5) rfl (by norm_num) (by norm_num [sampleEval1, sampleEval2])

end SBA
